import Mathlib

/-!
Verification of the overlay/alert coordination mechanism of the admin
console, shallowly embedded from `src/components/admin/OrderEmailPreviewOverlay.tsx`
and `src/app/admin/shop/page.tsx`.  Types imported from `@/lib/sharedTypes`
and the zustand overlay store (`@/zustand/admin/overlayStore`) are not part
of the repository snapshot; they are modelled from the spec where a claim
depends on them, as indicated by the doc comments.
-/

set_option maxRecDepth 4000

namespace Bundlestand

/-- Modelled from the spec: `EmailType` lives in `@/lib/sharedTypes`, which is
missing from the snapshot.  The spec fixes it as a closed set of three
categories (order confirmed / shipped / delivered), matching the three keys
used by every `Record<EmailType, string>` in the source. -/
inductive EmailType where
  | ORDER_CONFIRMED : EmailType
  | ORDER_SHIPPED : EmailType
  | ORDER_DELIVERED : EmailType
deriving DecidableEq, Repr

/-- Modelled from the spec: `AlertMessageType` lives in `@/lib/sharedTypes`,
which is missing from the snapshot.  The spec fixes the severity tags as
neutral, success and error, matching the members used in the source. -/
inductive AlertMessageType where
  | NEUTRAL : AlertMessageType
  | SUCCESS : AlertMessageType
  | ERROR : AlertMessageType
deriving DecidableEq, Repr

/-- `overlayNameKeys` (OrderEmailPreviewOverlay.tsx lines 15-19). -/
def overlayNameKeys : EmailType → String
  | EmailType.ORDER_CONFIRMED => "orderConfirmedEmailPreview"
  | EmailType.ORDER_SHIPPED => "orderShippedEmailPreview"
  | EmailType.ORDER_DELIVERED => "orderDeliveredEmailPreview"

/-- `emailLabels` (OrderEmailPreviewOverlay.tsx lines 21-25). -/
def emailLabels : EmailType → String
  | EmailType.ORDER_CONFIRMED => "Confirmed"
  | EmailType.ORDER_SHIPPED => "Shipped"
  | EmailType.ORDER_DELIVERED => "Delivered"

/-- `emailSubjects` (OrderEmailPreviewOverlay.tsx lines 27-31). -/
def emailSubjects : EmailType → String
  | EmailType.ORDER_CONFIRMED => "Your Order\x27s Confirmed"
  | EmailType.ORDER_SHIPPED => "Your Order Has Been Shipped"
  | EmailType.ORDER_DELIVERED => "Your Order Has Been Delivered"

/-- `overlayTitles` (OrderEmailPreviewOverlay.tsx lines 33-37). -/
def overlayTitles : EmailType → String
  | EmailType.ORDER_CONFIRMED => "Order confirmed"
  | EmailType.ORDER_SHIPPED => "Order shipped"
  | EmailType.ORDER_DELIVERED => "Order delivered"

/-- The JSON body of the POST to `/api/order-emails` built by
`handleSendEmail` (OrderEmailPreviewOverlay.tsx lines 101-105). -/
structure OrderEmailRequest where
  customerEmail : String
  emailSubject : String
  emailType : EmailType
deriving DecidableEq, Repr

/-- The request body as a function of the email type only: the component
hard-codes the recipient and derives the subject from the static
`emailSubjects` map; no field depends on the order being viewed
(OrderEmailPreviewOverlay.tsx lines 101-105). -/
def sendEmailRequestBody (t : EmailType) : OrderEmailRequest :=
  { customerEmail := "khanofemperia@gmail.com"
    emailSubject := emailSubjects t
    emailType := t }

/-- The local alert state of `EmailPreviewOverlay`
(OrderEmailPreviewOverlay.tsx lines 67-71). -/
structure AlertState where
  message : String
  isVisible : Bool
  type : AlertMessageType
deriving DecidableEq, Repr

/-- The `useState` initial alert (OrderEmailPreviewOverlay.tsx lines 67-71). -/
def initialAlert : AlertState :=
  { message := "", isVisible := false, type := AlertMessageType.NEUTRAL }

/-- `closeAlert` (OrderEmailPreviewOverlay.tsx lines 92-93): spreads the
current alert, then overrides `isVisible` with false and `message` with "". -/
def closeAlert (a : AlertState) : AlertState :=
  { a with isVisible := false, message := "" }

/-- The alert set on the success path of `handleSendEmail`
(OrderEmailPreviewOverlay.tsx lines 110-114). -/
def successAlert : AlertState :=
  { message := "Email sent successfully!", isVisible := true
    type := AlertMessageType.SUCCESS }

/-- The alert set on the catch path of `handleSendEmail`
(OrderEmailPreviewOverlay.tsx lines 117-121). -/
def errorAlert : AlertState :=
  { message := "Failed to send email", isVisible := true
    type := AlertMessageType.ERROR }

/-- The outcome of the `fetch` call: either a response carrying its `ok`
flag (`ok` is true exactly for 2xx statuses), or a transport error carrying
the thrown error's description. -/
inductive FetchResult where
  | response : Bool → FetchResult
  | transportError : String → FetchResult
deriving DecidableEq, Repr

/-- Whether the fetch outcome is a response with `ok = true`. -/
def isOkResult : FetchResult → Bool
  | FetchResult.response ok => ok
  | FetchResult.transportError _ => false

/-- The component state touched by `handleSendEmail`: the `isLoading` flag
and the alert (OrderEmailPreviewOverlay.tsx lines 66-71). -/
structure SendControl where
  isLoading : Bool
  alert : AlertState
deriving DecidableEq, Repr

/-- The synchronous prefix of `handleSendEmail`: `setIsLoading(true)`
(OrderEmailPreviewOverlay.tsx line 96). -/
def handleSendEmailStart (s : SendControl) : SendControl :=
  { s with isLoading := true }

/-- The continuation of `handleSendEmail` once the fetch outcome is known
(OrderEmailPreviewOverlay.tsx lines 108-124).  A non-ok response throws
`new Error("Failed to send email")`, which the catch block logs via
`console.error` before setting the error alert; a transport error is logged
the same way.  The `finally` block clears `isLoading`.  The second component
of the result is the argument passed to `console.error`, if any. -/
def handleSendEmailFinish (s : SendControl) (res : FetchResult) :
    SendControl × Option String :=
  match res with
  | FetchResult.response ok =>
    if ok then
      ({ s with alert := successAlert, isLoading := false }, none)
    else
      ({ s with alert := errorAlert, isLoading := false },
        some "Failed to send email")
  | FetchResult.transportError e =>
      ({ s with alert := errorAlert, isLoading := false }, some e)

/-- A whole run of `handleSendEmail` for a given fetch outcome
(OrderEmailPreviewOverlay.tsx lines 95-125). -/
def handleSendEmail (s : SendControl) (res : FetchResult) :
    SendControl × Option String :=
  handleSendEmailFinish (handleSendEmailStart s) res

/-- The three email template components, abstracted to tags
(OrderEmailPreviewOverlay.tsx lines 9-11). -/
inductive EmailTemplate where
  | orderConfirmedTemplate : EmailTemplate
  | orderShippedTemplate : EmailTemplate
  | orderDeliveredTemplate : EmailTemplate
deriving DecidableEq, Repr

/-- `renderEmailTemplate` (OrderEmailPreviewOverlay.tsx lines 127-138),
embedded as the same case-by-case dispatch; the final `else none` is the
`default: return null` branch. -/
def renderEmailTemplate (t : EmailType) : Option EmailTemplate :=
  if t = EmailType.ORDER_CONFIRMED then some EmailTemplate.orderConfirmedTemplate
  else if t = EmailType.ORDER_SHIPPED then some EmailTemplate.orderShippedTemplate
  else if t = EmailType.ORDER_DELIVERED then some EmailTemplate.orderDeliveredTemplate
  else none

/-- Modelled from the spec: one overlay of the registry — a name (unique
within its page) and a boolean visibility flag.  The zustand store
`@/zustand/admin/overlayStore` is not in the snapshot; only its callers are
(OrderEmailPreviewOverlay.tsx lines 40-45, 73-80, 175). -/
structure OverlayEntry where
  name : String
  isVisible : Bool
deriving DecidableEq, Repr

/-- Modelled from the spec: one page of the registry — a name and its
mapping from overlay name to overlay. -/
structure PageEntry where
  name : String
  overlays : List OverlayEntry
deriving DecidableEq, Repr

/-- Modelled from the spec: the process-wide overlay registry holding, for
every page, its named overlays and their visibility flags. -/
structure OverlayStore where
  pages : List PageEntry
deriving DecidableEq, Repr

/-- Modelled from the spec: the registry write shared by `showOverlay` and
`hideOverlay` — set the flag of the overlay identified by
(pageName, overlayName) to `v`, touching nothing else. -/
def setOverlayVisibility (s : OverlayStore) (pageName overlayName : String)
    (v : Bool) : OverlayStore :=
  { pages := s.pages.map fun p =>
      if p.name = pageName then
        { p with overlays := p.overlays.map fun o =>
            if o.name = overlayName then { o with isVisible := v } else o }
      else p }

/-- Modelled from the spec: `showOverlay({pageName, overlayName})` sets the
identified overlay's visibility flag true. -/
def showOverlay (s : OverlayStore) (pageName overlayName : String) : OverlayStore :=
  setOverlayVisibility s pageName overlayName true

/-- Modelled from the spec: `hideOverlay({pageName, overlayName})` sets the
identified overlay's visibility flag false. -/
def hideOverlay (s : OverlayStore) (pageName overlayName : String) : OverlayStore :=
  setOverlayVisibility s pageName overlayName false

/-- Lookup of a page by name in the registry. -/
def findPage (s : OverlayStore) (pageName : String) : Option PageEntry :=
  s.pages.find? fun p => p.name = pageName

/-- Lookup of an overlay by (pageName, overlayName), mirroring the read
`state.pages.orderDetails.overlays[key]` of the consumers. -/
def findOverlay (s : OverlayStore) (pageName overlayName : String) :
    Option OverlayEntry :=
  (findPage s pageName).bind fun p => p.overlays.find? fun o => o.name = overlayName

/-- The visibility read `...overlays[key].isVisible`
(OrderEmailPreviewOverlay.tsx lines 75-77). -/
def readVisibility (s : OverlayStore) (pageName overlayName : String) :
    Option Bool :=
  (findOverlay s pageName overlayName).map fun o => o.isVisible

/-- Modelled from the spec: the static page/overlay map for the order
details page, defined at application start with the three email preview
overlays (keys from `overlayNameKeys`), all initially hidden. -/
def initialOverlayStore : OverlayStore :=
  { pages := [
      { name := "orderDetails"
        overlays := [
          { name := "orderConfirmedEmailPreview", isVisible := false },
          { name := "orderShippedEmailPreview", isVisible := false },
          { name := "orderDeliveredEmailPreview", isVisible := false } ] } ] }

/-- `find?` over a list mapped by a function that preserves the searched
name finds exactly the image of the original hit. -/
theorem find?_map_of_name_eq {α : Type} (nm : α → String) (f : α → α)
    (hf : ∀ a, nm (f a) = nm a) (l : List α) (s : String) :
    (l.map f).find? (fun a => nm a = s) = (l.find? (fun a => nm a = s)).map f := by
  induction l with
  | nil => rfl
  | cons a t ih =>
    by_cases h : nm a = s
    · simp [List.find?_cons, hf, h]
    · simp [List.find?_cons, hf, h, ih]

/-- The page rewrite of `setOverlayVisibility` preserves page names. -/
theorem setOverlayVisibility_page_name (pageName overlayName : String)
    (v : Bool) (p : PageEntry) :
    (if p.name = pageName then
        { p with overlays := p.overlays.map fun o =>
            if o.name = overlayName then { o with isVisible := v } else o }
      else p).name = p.name := by
  by_cases h : p.name = pageName <;> simp [h]

/-- The overlay rewrite of `setOverlayVisibility` preserves overlay names. -/
theorem setOverlayVisibility_overlay_name (overlayName : String) (v : Bool)
    (o : OverlayEntry) :
    (if o.name = overlayName then { o with isVisible := v } else o).name
      = o.name := by
  by_cases h : o.name = overlayName <;> simp [h]

/-- The key registry lemma: after `setOverlayVisibility s pn ov v`, looking
up (pn, ov) yields exactly the previously stored overlay with its flag
overwritten by `v`. -/
theorem findOverlay_setOverlayVisibility (s : OverlayStore)
    (pn ov : String) (v : Bool) :
    findOverlay (setOverlayVisibility s pn ov v) pn ov
      = (findOverlay s pn ov).map fun o => { o with isVisible := v } := by
  unfold findOverlay findPage setOverlayVisibility
  rw [find?_map_of_name_eq (fun p => p.name) _
        (setOverlayVisibility_page_name pn ov v) s.pages pn]
  cases hp : s.pages.find? (fun p => p.name = pn) with
  | none => rfl
  | some p =>
    have hname : p.name = pn := by
      have := List.find?_some hp
      simpa using this
    simp only [Option.map_some', Option.some_bind, hname, if_pos, ite_true,
      eq_self_iff_true]
    rw [find?_map_of_name_eq (fun o => o.name) _
          (setOverlayVisibility_overlay_name ov v) p.overlays ov]
    cases ho : p.overlays.find? (fun o => o.name = ov) with
    | none => rfl
    | some e =>
      have he : e.name = ov := by simpa using List.find?_some ho
      simp [he]

/-- Reading through `setOverlayVisibility` returns `v` whenever the pair is
defined. -/
theorem readVisibility_setOverlayVisibility (s : OverlayStore)
    (pn ov : String) (v : Bool)
    (h : (findOverlay s pn ov).isSome = true) :
    readVisibility (setOverlayVisibility s pn ov v) pn ov = some v := by
  unfold readVisibility
  rw [findOverlay_setOverlayVisibility]
  cases hf : findOverlay s pn ov with
  | none => rw [hf] at h; simp at h
  | some o => simp

/-- C1: for every (pageName, overlayName) pair defined in the page/overlay
map (in particular every pair of the static map, whose shape all registry
states share), `showOverlay` followed immediately by a visibility read
returns true, and `hideOverlay` followed by a read returns false. -/
theorem showOverlay_hideOverlay_read (s : OverlayStore) (pn ov : String)
    (h : (findOverlay s pn ov).isSome = true) :
    readVisibility (showOverlay s pn ov) pn ov = some true ∧
    readVisibility (hideOverlay s pn ov) pn ov = some false :=
  ⟨readVisibility_setOverlayVisibility s pn ov true h,
   readVisibility_setOverlayVisibility s pn ov false h⟩

/-- Witness for C1 at the static map and the order-shipped overlay. -/
theorem showOverlay_hideOverlay_read_witness :
    readVisibility (showOverlay initialOverlayStore "orderDetails"
        "orderShippedEmailPreview") "orderDetails" "orderShippedEmailPreview"
      = some true ∧
    readVisibility (hideOverlay initialOverlayStore "orderDetails"
        "orderShippedEmailPreview") "orderDetails" "orderShippedEmailPreview"
      = some false :=
  showOverlay_hideOverlay_read initialOverlayStore "orderDetails"
    "orderShippedEmailPreview" (by decide)

/-- C7: show/hide are idempotent on every defined pair: showing twice leaves
the flag true (no toggle-off side effect), and hiding an already hidden
overlay leaves it false. -/
theorem showOverlay_hideOverlay_idempotent (s : OverlayStore) (pn ov : String)
    (h : (findOverlay s pn ov).isSome = true) :
    readVisibility (showOverlay (showOverlay s pn ov) pn ov) pn ov = some true ∧
    (readVisibility s pn ov = some false →
      readVisibility (hideOverlay s pn ov) pn ov = some false) := by
  constructor
  · apply readVisibility_setOverlayVisibility
    unfold showOverlay
    rw [findOverlay_setOverlayVisibility]
    cases hf : findOverlay s pn ov with
    | none => rw [hf] at h; simp at h
    | some o => simp
  · intro _
    exact readVisibility_setOverlayVisibility s pn ov false h

/-- Witness for C7 at the static map and the order-confirmed overlay, whose
flag starts out false. -/
theorem showOverlay_hideOverlay_idempotent_witness :
    readVisibility (showOverlay (showOverlay initialOverlayStore
        "orderDetails" "orderConfirmedEmailPreview") "orderDetails"
        "orderConfirmedEmailPreview") "orderDetails" "orderConfirmedEmailPreview"
      = some true ∧
    readVisibility (hideOverlay initialOverlayStore "orderDetails"
        "orderConfirmedEmailPreview") "orderDetails" "orderConfirmedEmailPreview"
      = some false := by
  have h := showOverlay_hideOverlay_idempotent initialOverlayStore
    "orderDetails" "orderConfirmedEmailPreview" (by decide)
  exact ⟨h.1, h.2 (by decide)⟩

/-- The slice of one mounted `EmailPreviewOverlay` instance that its scroll
effect depends on: its overlay flag and its alert flag — exactly the
dependency array `[isOverlayVisible, alert.isVisible]`
(OrderEmailPreviewOverlay.tsx line 90). -/
structure EmailPreviewComp where
  overlayVisible : Bool
  alertVisible : Bool
deriving DecidableEq, Repr

/-- The condition `isOverlayVisible || alert.isVisible` of the scroll effect
(OrderEmailPreviewOverlay.tsx line 84). -/
def lockCondition (c : EmailPreviewComp) : Bool :=
  c.overlayVisible || c.alertVisible

/-- The effect body (OrderEmailPreviewOverlay.tsx lines 83-84): it assigns
`document.body.style.overflow` unconditionally, discarding the previous
value. -/
def effectBodyRun (c : EmailPreviewComp) (_overflow : String) : String :=
  if lockCondition c then "hidden" else "visible"

/-- The effect cleanup (OrderEmailPreviewOverlay.tsx lines 85-89): it closes
over the dependency values `captured` of the run that registered it and
restores `overflow = "visible"` exactly when both captured flags are false. -/
def effectCleanupRun (captured : EmailPreviewComp) (overflow : String) : String :=
  if !captured.overlayVisible && !captured.alertVisible then "visible" else overflow

/-- A page with its mounted `EmailPreviewOverlay` instances and the current
`document.body.style.overflow` value. -/
structure PageUI where
  comps : List EmailPreviewComp
  overflow : String
deriving DecidableEq, Repr

/-- The store/alert transitions a user can drive on the page: show or hide
the overlay of instance `i`, or make instance `i`'s alert visible or
dismiss it. -/
inductive UIOp where
  | showOv : Nat → UIOp
  | hideOv : Nat → UIOp
  | showAlert : Nat → UIOp
  | dismissAlert : Nat → UIOp
deriving DecidableEq, Repr

/-- Index of the component instance an operation targets. -/
def opIndex : UIOp → Nat
  | UIOp.showOv i => i
  | UIOp.hideOv i => i
  | UIOp.showAlert i => i
  | UIOp.dismissAlert i => i

/-- Effect of an operation on the flags of the instance it targets. -/
def updateComp : UIOp → EmailPreviewComp → EmailPreviewComp
  | UIOp.showOv _, c => { c with overlayVisible := true }
  | UIOp.hideOv _, c => { c with overlayVisible := false }
  | UIOp.showAlert _, c => { c with alertVisible := true }
  | UIOp.dismissAlert _, c => { c with alertVisible := false }

/-- One step of the page under React effect semantics: the targeted
instance's flags are updated; if its dependency array changed, that
instance reruns its scroll effect — the cleanup registered by the previous
run (whose captured values are the old flags) runs first, then the new body
assigns.  Instances whose dependencies did not change do not rerun. -/
def stepUI (p : PageUI) (op : UIOp) : PageUI :=
  match p.comps.get? (opIndex op) with
  | none => p
  | some c =>
    let c2 := updateComp op c
    if c2 = c then
      { p with comps := p.comps.set (opIndex op) c2 }
    else
      { comps := p.comps.set (opIndex op) c2
        overflow := effectBodyRun c2 (effectCleanupRun c p.overflow) }

/-- Run a sequence of operations. -/
def runUI (p : PageUI) (ops : List UIOp) : PageUI :=
  ops.foldl stepUI p

/-- Whether at least one overlay or alert on the page is visible. -/
def anyVisible (p : PageUI) : Bool :=
  p.comps.any lockCondition

/-- A freshly mounted page with `n` instances, all hidden; each mount effect
ran with both flags false, leaving `overflow = "visible"`. -/
def initialPage (n : Nat) : PageUI :=
  { comps := List.replicate n { overlayVisible := false, alertVisible := false }
    overflow := "visible" }

/-- Unmounting instance `i`: React runs the cleanup of its last effect run;
the captured dependency values are the instance's current flags (a change
would have rerun the effect before teardown). -/
def unmountComp (p : PageUI) (i : Nat) : PageUI :=
  match p.comps.get? i with
  | none => p
  | some c =>
    { comps := p.comps.eraseIdx i
      overflow := effectCleanupRun c p.overflow }

/-- C3 counterexample: on the three-overlay order-details page, show overlay
0, then show and hide overlay 1.  Overlay 0 is still visible, yet overlay
1's effect rerun set `overflow` back to "visible": scroll is not disabled
although an overlay is visible, refuting the claimed iff invariant. -/
theorem scroll_lock_invariant_counterexample :
    ¬ ((runUI (initialPage 3) [UIOp.showOv 0, UIOp.showOv 1, UIOp.hideOv 1]).overflow
          = "hidden"
        ↔ anyVisible (runUI (initialPage 3)
            [UIOp.showOv 0, UIOp.showOv 1, UIOp.hideOv 1]) = true) := by
  decide

/-- The reachability invariant of a single-instance page: the overflow value
always equals what the sole instance's last effect run assigned. -/
def SingleInv (p : PageUI) : Prop :=
  ∃ c : EmailPreviewComp, p.comps = [c] ∧
    p.overflow = (if lockCondition c then "hidden" else "visible")

/-- `stepUI` preserves the single-instance invariant. -/
theorem singleInv_stepUI (p : PageUI) (op : UIOp)
    (h : SingleInv p) : SingleInv (stepUI p op) := by
  obtain ⟨c, hc, hov⟩ := h
  unfold stepUI
  rw [hc]
  cases hi : [c].get? (opIndex op) with
  | none => exact ⟨c, hc, hov⟩
  | some c0 =>
    have hc0 : c0 = c := by
      cases hidx : opIndex op with
      | zero => rw [hidx] at hi; simpa using hi.symm
      | succ k => rw [hidx] at hi; simp at hi
    subst hc0
    by_cases heq : updateComp op c0 = c0
    · refine ⟨c0, ?_, ?_⟩
      · simp [heq]
        cases opIndex op <;> simp [List.set]
      · simpa [heq] using hov
    · refine ⟨updateComp op c0, ?_, ?_⟩
      · simp [heq]
        have : opIndex op = 0 := by
          cases hidx : opIndex op with
          | zero => rfl
          | succ k => rw [hidx] at hi; simp at hi
        rw [this]
        simp [List.set]
      · simp [heq, effectBodyRun]

/-- The single-instance invariant holds along every run. -/
theorem singleInv_runUI (ops : List UIOp) (p : PageUI)
    (h : SingleInv p) : SingleInv (runUI p ops) := by
  induction ops generalizing p with
  | nil => exact h
  | cons op t ih => exact ih (stepUI p op) (singleInv_stepUI p op h)

/-- C3 amended: on a page with a single overlay component instance, after
every sequence of show/hide and alert show/dismiss operations, scroll is
disabled exactly when that instance's overlay or alert is visible — the
page-wide iff of the original claim holds only in this single-instance
scope, because each instance's effect consults only its own two flags. -/
theorem scroll_lock_invariant_single_instance (ops : List UIOp) :
    ((runUI (initialPage 1) ops).overflow = "hidden"
      ↔ anyVisible (runUI (initialPage 1) ops) = true) := by
  have h0 : SingleInv (initialPage 1) := by
    exact ⟨{ overlayVisible := false, alertVisible := false }, rfl, rfl⟩
  obtain ⟨c, hc, hov⟩ := singleInv_runUI ops (initialPage 1) h0
  rw [hov]
  unfold anyVisible
  rw [hc]
  by_cases hl : lockCondition c <;> simp [hl]

/-- C4: the scroll lock is a scoped effect.  First conjunct: whatever the
previous overflow value and whichever dependency values the outgoing
cleanup captured, a rerun (cleanup, then body) applies the lock state
dictated by the new condition.  Second conjunct: at teardown of a mounted
instance, when no overlay or alert on the page is visible at the time the
cleanup runs, the cleanup restores the scrollable state, so no locked
scroll leaks across the unmount. -/
theorem scroll_lock_scoped_effect (p : PageUI) (i : Nat)
    (c : EmailPreviewComp) (hc : p.comps.get? i = some c)
    (hnone : anyVisible p = false) :
    (∀ (captured current : EmailPreviewComp) (overflow : String),
        effectBodyRun current (effectCleanupRun captured overflow)
          = (if lockCondition current then "hidden" else "visible")) ∧
    (unmountComp p i).overflow = "visible" := by
  constructor
  · intro captured current overflow
    rfl
  · have hmem : c ∈ p.comps := List.get?_mem hc
    have hlock : lockCondition c = false := by
      unfold anyVisible at hnone
      rw [List.any_eq_false] at hnone
      simpa using hnone c hmem
    have hovf : c.overlayVisible = false := by
      unfold lockCondition at hlock
      exact (Bool.or_eq_false_iff.mp hlock).1
    have half : c.alertVisible = false := by
      unfold lockCondition at hlock
      exact (Bool.or_eq_false_iff.mp hlock).2
    unfold unmountComp
    rw [hc]
    simp [effectCleanupRun, hovf, half]

/-- Witness for C4: a mounted single-instance page with nothing visible,
torn down at index 0. -/
theorem scroll_lock_scoped_effect_witness :
    (unmountComp (initialPage 1) 0).overflow = "visible" :=
  (scroll_lock_scoped_effect (initialPage 1) 0
    { overlayVisible := false, alertVisible := false } (by decide) (by decide)).2

/-- The events the send control reacts to: a user click on the trigger
button, or the arrival of the fetch outcome for the in-flight request. -/
inductive ControlEvent where
  | click : ControlEvent
  | resolve : FetchResult → ControlEvent
deriving DecidableEq, Repr

/-- The send control's transition function.  `disabled={isLoading}`
(OrderEmailPreviewOverlay.tsx line 144) means a click while loading does
nothing; a click while idle runs the synchronous prefix of
`handleSendEmail` (sets `isLoading` true); a fetch outcome can only arrive
for an in-flight request and runs the rest of `handleSendEmail`. -/
def controlStep (s : SendControl) (e : ControlEvent) : SendControl :=
  match e with
  | ControlEvent.click =>
      if s.isLoading then s else handleSendEmailStart s
  | ControlEvent.resolve res =>
      if s.isLoading then (handleSendEmailFinish s res).1 else s

/-- C5: the send control follows
Idle → Submitting → {Idle-with-SuccessAlert, Idle-with-ErrorAlert}:
Submitting (isLoading) is entered only from Idle and only by a click; every
fetch outcome leaves Submitting for an Idle state whose alert is visible
with a success or error category; and while in flight a click is a no-op,
so no second concurrent invocation from the control is possible. -/
theorem sendControl_state_machine (s : SendControl) :
    (∀ e : ControlEvent, (controlStep s e).isLoading = true →
        s.isLoading = false → e = ControlEvent.click) ∧
    (∀ res : FetchResult, s.isLoading = true →
        (controlStep s (ControlEvent.resolve res)).isLoading = false ∧
        (controlStep s (ControlEvent.resolve res)).alert.isVisible = true ∧
        ((controlStep s (ControlEvent.resolve res)).alert.type
            = AlertMessageType.SUCCESS ∨
         (controlStep s (ControlEvent.resolve res)).alert.type
            = AlertMessageType.ERROR)) ∧
    (s.isLoading = true → controlStep s ControlEvent.click = s) := by
  refine ⟨?_, ?_, ?_⟩
  · intro e hafter hbefore
    cases e with
    | click => rfl
    | resolve res =>
      exfalso
      rw [controlStep, if_neg (by rw [hbefore]; exact Bool.false_ne_true)] at hafter
      rw [hbefore] at hafter
      exact Bool.false_ne_true hafter
  · intro res hload
    rw [controlStep, if_pos hload]
    cases res with
    | response ok =>
      cases ok <;>
        simp [handleSendEmailFinish, successAlert, errorAlert]
    | transportError e =>
      simp [handleSendEmailFinish, errorAlert]
  · intro hload
    rw [controlStep, if_pos hload]

/-- Witness for C5: a concrete submitting state ignores a click, and a
successful resolution returns it to idle with a success alert. -/
theorem sendControl_state_machine_witness :
    controlStep { isLoading := true, alert := initialAlert } ControlEvent.click
      = { isLoading := true, alert := initialAlert } ∧
    (controlStep { isLoading := true, alert := initialAlert }
        (ControlEvent.resolve (FetchResult.response true))).isLoading = false :=
  ⟨(sendControl_state_machine { isLoading := true, alert := initialAlert }).2.2 rfl,
   ((sendControl_state_machine { isLoading := true, alert := initialAlert }).2.1
      (FetchResult.response true) rfl).1⟩

/-- C2: for every response of the send-email call, `handleSendEmail` sets
the alert visible with the success category and the fixed confirmation text
exactly when the response status is ok (2xx), and otherwise sets the alert
visible with the error category and the fixed failure text while the
underlying error is logged (and the alert text stays the fixed one); in
both cases the busy flag is cleared afterwards. -/
theorem handleSendEmail_alert_spec (s : SendControl) (res : FetchResult) :
    (handleSendEmail s res).1.alert
        = (if isOkResult res then successAlert else errorAlert) ∧
    (handleSendEmail s res).1.alert.isVisible = true ∧
    (handleSendEmail s res).1.isLoading = false ∧
    ((handleSendEmail s res).2.isSome = !isOkResult res) := by
  cases res with
  | response ok =>
    cases ok <;>
      simp [handleSendEmail, handleSendEmailFinish, handleSendEmailStart,
        isOkResult, successAlert, errorAlert]
  | transportError e =>
    simp [handleSendEmail, handleSendEmailFinish, handleSendEmailStart,
      isOkResult, errorAlert]

/-- C6: for every emailType, the send-notification request carries the fixed
recipient address, the subject from the closed three-entry `emailSubjects`
mapping, and the category tag itself. -/
theorem sendEmailRequestBody_spec (t : EmailType) :
    (sendEmailRequestBody t).customerEmail = "khanofemperia@gmail.com" ∧
    (sendEmailRequestBody t).emailType = t ∧
    (sendEmailRequestBody t).emailSubject = emailSubjects t ∧
    ((sendEmailRequestBody t).emailSubject = "Your Order\x27s Confirmed" ∨
     (sendEmailRequestBody t).emailSubject = "Your Order Has Been Shipped" ∨
     (sendEmailRequestBody t).emailSubject = "Your Order Has Been Delivered") := by
  cases t with
  | ORDER_CONFIRMED => exact ⟨rfl, rfl, rfl, Or.inl rfl⟩
  | ORDER_SHIPPED => exact ⟨rfl, rfl, rfl, Or.inr (Or.inl rfl)⟩
  | ORDER_DELIVERED => exact ⟨rfl, rfl, rfl, Or.inr (Or.inr rfl)⟩

/-- C8: dismissing the alert via `closeAlert` hides it, clears the message
text, and leaves the severity/type field unchanged. -/
theorem closeAlert_spec (a : AlertState) :
    (closeAlert a).isVisible = false ∧
    (closeAlert a).message = "" ∧
    (closeAlert a).type = a.type := by
  exact ⟨rfl, rfl, rfl⟩

/-- C9: `renderEmailTemplate` is total over the email-type enumeration: each
of the three values maps to its corresponding template, so the
null-returning default branch is unreachable for every value of the enum. -/
theorem renderEmailTemplate_total (t : EmailType) :
    renderEmailTemplate t =
      some (match t with
            | EmailType.ORDER_CONFIRMED => EmailTemplate.orderConfirmedTemplate
            | EmailType.ORDER_SHIPPED => EmailTemplate.orderShippedTemplate
            | EmailType.ORDER_DELIVERED => EmailTemplate.orderDeliveredTemplate) := by
  cases t <;> rfl

/-- A Firestore document of the "orders" collection: its document id
(`snapshot.id`) together with the content of `snapshot.data()`, split into
the value of the data's own `id` key when the document stores one
(`dataId`) and an abstract payload standing for the remaining fields. -/
structure OrderDoc where
  docId : String
  dataId : Option String
  payload : String
deriving DecidableEq, Repr

/-- The order record built by `getOrderById`
(src/app/admin/shop/page.tsx lines 323-326): `{ id: snapshot.id, ...snapshot.data() }`. -/
structure OrderType where
  id : String
  payload : String
deriving DecidableEq, Repr

/-- The object literal `{ id: snapshot.id, ...snapshot.data() }`
(page.tsx lines 323-326).  The spread comes after the explicit `id`
property, so when the document data itself carries an `id` key that value
overrides `snapshot.id`; otherwise the record's id is `snapshot.id`. -/
def spreadOrderRecord (snapshot : OrderDoc) : OrderType :=
  { id := snapshot.dataId.getD snapshot.docId
    payload := snapshot.payload }

/-- `doc(database, "orders", id)` (page.tsx line 316): Firestore throws on
an invalid (empty) document path segment, otherwise yields the reference. -/
def docRef (collectionName id : String) : Except String String :=
  if id = "" then
    Except.error ("Invalid document reference: " ++ collectionName)
  else Except.ok id

/-- `getOrderById` (src/app/admin/shop/page.tsx lines 311-329), with the
orders collection passed explicitly and `getDoc` embedded as a lookup by
document id; `snapshot.exists()` is the lookup succeeding. -/
def getOrderById (orders : List OrderDoc) (id : String) :
    Except String (Option OrderType) :=
  if id = "" then Except.ok none
  else
    match docRef "orders" id with
    | Except.error e => Except.error e
    | Except.ok r =>
      match orders.find? (fun d => d.docId = r) with
      | none => Except.ok none
      | some snapshot => Except.ok (some (spreadOrderRecord snapshot))

/-- C10 counterexample: a stored document whose data carries its own `id`
key.  The spread in `{ id: snapshot.id, ...snapshot.data() }` overrides
`snapshot.id`, so the returned record's id is the data's "other", not the
looked-up document's id "ord1" — refuting the claimed id-equality. -/
theorem getOrderById_id_override_counterexample :
    getOrderById [{ docId := "ord1", dataId := some "other", payload := "p1" }]
        "ord1"
      = Except.ok (some { id := "other", payload := "p1" }) ∧
    ("other" : String) ≠ "ord1" := by
  constructor
  · rfl
  · decide

/-- C10 amended: `getOrderById` returns null whenever the id is empty or no
document with that id exists, never throwing; on a hit it returns the
record `{ id: snapshot.id, ...snapshot.data() }`, whose `id` field equals
the looked-up document's id whenever the document data carries no `id` key
of its own (a data `id` key, spread after the explicit property, overrides
`snapshot.id`). -/
theorem getOrderById_spec (orders : List OrderDoc) (id : String) :
    (∃ v, getOrderById orders id = Except.ok v) ∧
    (id = "" → getOrderById orders id = Except.ok none) ∧
    (orders.find? (fun d => d.docId = id) = none →
        getOrderById orders id = Except.ok none) ∧
    (∀ snapshot, id ≠ "" → orders.find? (fun d => d.docId = id) = some snapshot →
        getOrderById orders id = Except.ok (some (spreadOrderRecord snapshot)) ∧
          snapshot.docId = id ∧
          (snapshot.dataId = none → (spreadOrderRecord snapshot).id = id)) := by
  by_cases hid : id = ""
  · refine ⟨⟨none, ?_⟩, fun _ => ?_, fun _ => ?_, fun snapshot hne _ => ?_⟩
    · simp [getOrderById, hid]
    · simp [getOrderById, hid]
    · simp [getOrderById, hid]
    · exact absurd hid hne
  · have hdoc : docRef "orders" id = Except.ok id := by
      simp [docRef, hid]
    refine ⟨?_, fun h => absurd h hid, ?_, ?_⟩
    · cases hf : orders.find? (fun d => d.docId = id) with
      | none => exact ⟨none, by simp [getOrderById, hid, hdoc, hf]⟩
      | some snapshot =>
        exact ⟨some (spreadOrderRecord snapshot),
          by simp [getOrderById, hid, hdoc, hf]⟩
    · intro hf
      simp [getOrderById, hid, hdoc, hf]
    · intro snapshot _ hf
      have hdocId : snapshot.docId = id := by
        simpa using List.find?_some hf
      refine ⟨by simp [getOrderById, hid, hdoc, hf], hdocId, ?_⟩
      intro hdata
      simp [spreadOrderRecord, hdata, hdocId]

/-- Witness for C10: a one-document collection whose data has no `id` key,
looked up by its id and by the empty id. -/
theorem getOrderById_spec_witness :
    getOrderById [{ docId := "ord1", dataId := none, payload := "data1" }] "ord1"
      = Except.ok (some { id := "ord1", payload := "data1" }) ∧
    getOrderById [{ docId := "ord1", dataId := none, payload := "data1" }] ""
      = Except.ok none := by
  constructor
  · exact ((getOrderById_spec
      [{ docId := "ord1", dataId := none, payload := "data1" }] "ord1").2.2.2
      { docId := "ord1", dataId := none, payload := "data1" }
      (by decide) (by decide)).1
  · exact (getOrderById_spec
      [{ docId := "ord1", dataId := none, payload := "data1" }] "").2.1 rfl

end Bundlestand
